import Mathlib

/-!
Shallow embedding of the tool-invocation orchestration core of the
Smart Purchase Advisor (src/action_layer.py): the plan executor
`ActionLayer.execute_tool_plan` and the self-check aggregator
`ActionLayer.check_tool_results`.

Modelling conventions:
- Python JSON-ish values become the inductive `Json`; Python dicts become
  insertion-ordered association lists `List (String × Json)` (JSON objects
  cannot carry duplicate keys).
- Python exceptions become `Except String`; the carried string models
  `str(e)`.  The exact rendering of Python exception messages is abstracted
  (for example a `KeyError k` is rendered as `"KeyError: " ++ k`): no
  verified property depends on the message text, only on which branch
  raises and on the error/ok distinction.
- The remote MCP channel `self.session.call_tool(name, arguments)` followed
  by the read of `result.content[0].text` is an opaque capability
  `Env.callTool : String → Json → Except String String` (an `Except.error`
  models the call raising, or `content[0]` being absent).  `json.loads` on
  response text is the opaque `Env.decode` (its `Except.error` models
  `json.JSONDecodeError`), and the `eval` of the legacy `check_consistency`
  branch is the opaque `Env.evalPy` (its error models any exception, caught
  by that branch's bare `except`).
- The executor additionally returns a trace of the remote calls it issued
  (tool name and full `arguments` payload, recorded at the moment
  `session.call_tool` is invoked); `execute_tool_plan` itself is the first
  projection.  The trace makes "invokes no tool" and "dispatches payload X"
  statable.
-/

namespace SmartPurchase

/-- JSON-like values exchanged between the layers and the tools. -/
inductive Json where
  | null : Json
  | bool : Bool → Json
  | num : Int → Json
  | str : String → Json
  | arr : List Json → Json
  | obj : List (String × Json) → Json

/-- Accumulated tool results: a Python dict from canonical tool name to
decoded output (ToolResults in the spec). -/
abbrev ToolResults := List (String × Json)

/-- Trace of remote dispatches: (tool name, arguments payload) pairs in
call order. -/
abbrev Trace := List (String × Json)

/-- Key lookup on a JSON value when it is an object; `none` otherwise.
Used only in theorem statements, not in the embedding itself. -/
def jlookup (j : Json) (k : String) : Option Json :=
  match j with
  | .obj fs => fs.lookup k
  | _ => none

/-- Python `d[k]` on a dict: raises `KeyError` when the key is absent and
`TypeError` when the receiver is not a dict (e.g. `None`). -/
def jindex (j : Json) (k : String) : Except String Json :=
  match j with
  | .obj fs =>
      match fs.lookup k with
      | some v => .ok v
      | none => .error ("KeyError: " ++ k)
  | _ => .error ("TypeError: object is not subscriptable: " ++ k)

/-- Python `d.get(k, dflt)`: raises `AttributeError` when the receiver is
not a dict (strings, numbers, lists have no `get`). -/
def jget (j : Json) (k : String) (dflt : Json) : Except String Json :=
  match j with
  | .obj fs => .ok ((fs.lookup k).getD dflt)
  | _ => .error ("AttributeError: object has no attribute get: " ++ k)

/-- Python `k in j` for a string key: key membership for dicts, substring
test for strings, element membership for lists, `TypeError` otherwise. -/
def inJson (k : String) (j : Json) : Except String Bool :=
  match j with
  | .obj fs => .ok (fs.lookup k).isSome
  | .str s => .ok (2 ≤ (s.splitOn k).length)
  | .arr xs => .ok (xs.any (fun x => match x with | .str s => s = k | _ => false))
  | _ => .error ("TypeError: argument of type is not iterable: " ++ k)

/-- Python `len(j)`: defined for lists, strings and dicts, `TypeError`
otherwise. -/
def pyLen (j : Json) : Except String Int :=
  match j with
  | .arr xs => .ok xs.length
  | .str s => .ok s.length
  | .obj fs => .ok fs.length
  | _ => .error "TypeError: object has no len"

/-- Python `float(j)` as used by the `verify` branch.  Float semantics are
collapsed onto the integer carrier of `Json.num` (no verified claim touches
the `verify` tool); numeric strings are parsed as integers. -/
def pyFloat (j : Json) : Except String Json :=
  match j with
  | .num n => .ok (.num n)
  | .bool b => .ok (.num (cond b 1 0))
  | .str s =>
      match s.toInt? with
      | some n => .ok (.num n)
      | none => .error "ValueError: could not convert string to float"
  | _ => .error "TypeError: float argument must be a string or a number"

/-- Python dict assignment `d[k] = v`: overwrite in place when the key
exists (keeping its position), append otherwise. -/
def setKey : List (String × Json) → String → Json → List (String × Json)
  | [], k, v => [(k, v)]
  | (k', v') :: rest, k, v =>
      if k' = k then (k, v) :: rest else (k', v') :: setKey rest k v

/-- The opaque external capabilities consumed by the action layer. -/
structure Env where
  callTool : String → Json → Except String String
  decode : String → Except String Json
  evalPy : String → Except String Json

/-- Ambient session state held by the `ActionLayer` instance:
`self.product_info` and `self.current_site` (both `None`, i.e. `Json.null`,
until set). -/
structure AgentState where
  productInfo : Json
  currentSite : Json

/-- Embedding of `ActionLayer.set_product_info` (src/action_layer.py lines 35-44):
stores the product info and refreshes `current_site` when a `site` key is
present. -/
def setProductInfo (st : AgentState) (fields : List (String × Json)) : AgentState :=
  { productInfo := .obj fields,
    currentSite :=
      match fields.lookup "site" with
      | some v => v
      | none => st.currentSite }

/-- Tool Call Normalizer, name half (src/action_layer.py lines 176-184):
`tool` → `tool_name` → `function.name` → `name`, first present wins.  The
nested probe `"name" in tool_call["function"]` raises a `TypeError` when
the `function` value is not a container, and the subsequent indexing
`tool_call["function"]["name"]` raises when it is not a dict. -/
def extractToolName (tc : List (String × Json)) : Except String (Option Json) :=
  match tc.lookup "tool" with
  | some v => .ok (some v)
  | none =>
    match tc.lookup "tool_name" with
    | some v => .ok (some v)
    | none =>
      match tc.lookup "function" with
      | some f =>
          (inJson "name" f).bind (fun b =>
            if b then (jindex f "name").map (fun v => some v)
            else .ok (tc.lookup "name"))
      | none => .ok (tc.lookup "name")

/-- Tool Call Normalizer, input half (src/action_layer.py lines 186-194):
`input` → `parameters` → `arguments` → `function.arguments`, first present
wins, defaulting to the empty mapping.  The same `TypeError` caveat applies
to a non-container `function` value. -/
def extractToolInput (tc : List (String × Json)) : Except String Json :=
  match tc.lookup "input" with
  | some v => .ok v
  | none =>
    match tc.lookup "parameters" with
    | some v => .ok v
    | none =>
      match tc.lookup "arguments" with
      | some v => .ok v
      | none =>
        match tc.lookup "function" with
        | some f =>
            (inJson "arguments" f).bind (fun b =>
              if b then jindex f "arguments"
              else .ok (.obj []))
        | none => .ok (.obj [])

/-- Builds the `arguments` payload `\x7b"input": fields\x7d` common to all
dispatches. -/
def mkInput (fields : List (String × Json)) : Json :=
  .obj [("input", .obj fields)]

/-- One remote dispatch: `prep` computes the `arguments` payload (its error
models an exception raised while resolving arguments, before any call),
then `session.call_tool` runs, then `post` consumes `result.content[0].text`.
The trace records the call exactly when it was issued. -/
def dispatch (env : Env) (prep : Except String Json) (nm : String)
    (post : String → Except String ToolResults) :
    Except String ToolResults × Trace :=
  match prep with
  | .error e => (.error e, [])
  | .ok args =>
      ((match env.callTool nm args with
        | .error e => .error e
        | .ok text => post text), [(nm, args)])

/-- Argument resolution of the `review_summary_tool` branch
(src/action_layer.py lines 212-227).  Python evaluates default arguments
eagerly, so `self.product_info["title"]` is computed first regardless of
the step input; `reviews` is read from `self.product_info`, never from the
step input. -/
def reviewSummaryPrep (st : AgentState) (tin : Json) : Except String Json := do
  let dflt ← jindex st.productInfo "title"
  let inner ← jget tin "product_title" dflt
  let product ← jget tin "product" inner
  let site ← jget tin "site" st.currentSite
  let numReviews ← jget tin "num_reviews" (.num 1000)
  let reviews ← jget st.productInfo "reviews" (.arr [])
  pure (mkInput [("product", product), ("site", site), ("reviews", reviews),
                 ("num_reviews", numReviews)])

/-- Argument resolution of the `classify_product` branch
(src/action_layer.py lines 202-206); the default `self.product_info["title"]`
is evaluated eagerly. -/
def classifyPrep (st : AgentState) (tin : Json) : Except String Json := do
  let dflt ← jindex st.productInfo "title"
  let title ← jget tin "title" dflt
  pure (mkInput [("title", title)])

/-- Input synthesis of the `calculate_confidence_score` branch
(src/action_layer.py lines 235-251).  The source wraps the dict indexing
`results["review_summary_tool"]` in `try ... except json.JSONDecodeError`;
a missing key raises `KeyError`, which that handler does not catch, so the
default sentiment object written in the handler is unreachable and the
`KeyError` escapes to the plan-level handler. -/
def confidencePrep (res : ToolResults) : Except String Json :=
  match res.lookup "review_summary_tool" with
  | some sentimentData => .ok (mkInput [("sentiment_data", sentimentData)])
  | none => .error "KeyError: review_summary_tool"

/-- One guarded extraction block of the `show_reasoning` branch
(src/action_layer.py lines 288-298, 301-308, 311-319): a stored string is
re-decoded (a `JSONDecodeError` is caught and leaves `product_data`
untouched), any other stored value is used as is, an absent entry becomes
the empty dict; `applyF` then performs the `.get` reads, whose
`AttributeError` on a non-dict is not caught. -/
def chainSource (env : Env) (res : ToolResults) (key : String)
    (pd : List (String × Json))
    (applyF : List (String × Json) → Json → Except String (List (String × Json))) :
    Except String (List (String × Json)) :=
  match res.lookup key with
  | some (.str s) =>
      match env.decode s with
      | .error _ => .ok pd
      | .ok j => applyF pd j
  | some j => applyF pd j
  | none => applyF pd (.obj [])

/-- The `review_summary_tool` reads of the `show_reasoning` branch
(src/action_layer.py lines 293-296). -/
def applyReviewFields (pd : List (String × Json)) (j : Json) :
    Except String (List (String × Json)) := do
  let s ← jget j "sentiment_score" (.num 0)
  let rc ← jget j "review_count" (.num 0)
  let p ← jget j "pros" (.arr [])
  let c ← jget j "cons" (.arr [])
  pure (setKey (setKey (setKey (setKey pd "sentiment_score" s) "review_count" rc)
        "pros" p) "cons" c)

/-- The `calculate_confidence_score` read of the `show_reasoning` branch
(src/action_layer.py line 306). -/
def applyConfidenceField (pd : List (String × Json)) (j : Json) :
    Except String (List (String × Json)) := do
  let cs ← jget j "confidence_score" (.num 0)
  pure (setKey pd "confidence_score" cs)

/-- The `self_check_tool_results` reads of the `show_reasoning` branch
(src/action_layer.py lines 316-317). -/
def applySelfCheckFields (pd : List (String × Json)) (j : Json) :
    Except String (List (String × Json)) := do
  let rs ← jget j "reliability_score" (.num 0)
  let rl ← jget j "reliability_level" (.str "Unknown")
  pure (setKey (setKey pd "reliability_score" rs) "reliability_level" rl)

/-- Input synthesis of the `show_reasoning` branch (src/action_layer.py
lines 276-324): a `product_data` dict seeded with zero-valued defaults,
then refined by three independently guarded extraction blocks. -/
def showReasoningPrep (env : Env) (st : AgentState) (res : ToolResults) :
    Except String Json := do
  let productName ← jget st.productInfo "title" (.str "Unknown Product")
  let pd0 : List (String × Json) :=
    [("product_name", productName), ("sentiment_score", .num 0),
     ("review_count", .num 0), ("pros", .arr []), ("cons", .arr []),
     ("confidence_score", .num 0), ("reliability_score", .num 0),
     ("reliability_level", .str "Unknown")]
  let pd1 ← chainSource env res "review_summary_tool" pd0 applyReviewFields
  let pd2 ← chainSource env res "calculate_confidence_score" pd1 applyConfidenceField
  let pd3 ← chainSource env res "self_check_tool_results" pd2 applySelfCheckFields
  pure (mkInput [("product_data", .obj pd3)])

/-- Input synthesis of the `review_consistency_check` branch
(src/action_layer.py lines 360-383): `results.get("review_summary_tool", "\x7b\x7d")`
defaults to the STRING of an empty JSON object, on which the subsequent
`.get` reads raise an uncaught `AttributeError` (the guard catches only
`json.JSONDecodeError`). -/
def consistencyPrep (res : ToolResults) : Except String Json := do
  let reviewSummary := (res.lookup "review_summary_tool").getD (.str "\x7b\x7d")
  let reviews ← jget reviewSummary "reviews" (.arr [])
  let sentiments ← jget reviewSummary "sentiments" (.arr [])
  pure (mkInput [("reviews_data",
      .obj [("reviews", reviews), ("sentiments", sentiments)])])

/-- Argument resolution of the `verify` branch (src/action_layer.py lines
344-352). -/
def verifyPrep (tin : Json) : Except String Json := do
  let expression ← jget tin "expression" (.str "")
  let expected ← jget tin "expected" (.num 0)
  let f ← pyFloat expected
  pure (mkInput [("expression", expression), ("expected", f)])

/-- Dispatch of one recognized tool name (the if/elif chain of
src/action_layer.py lines 202-404), given the normalized string name and
input.  Returns the updated results (or the raised exception) and the
trace of the remote call, when one was issued. -/
def dispatchByName (env : Env) (st : AgentState) (res : ToolResults)
    (s : String) (tin : Json) : Except String ToolResults × Trace :=
  if s = "classify_product" then
    dispatch env (classifyPrep st tin) "classify_product"
      (fun text => .ok (setKey res "classify_product" (.str text)))
  else if s = "review_summary" ∨ s = "review_summary_tool" then
    dispatch env (reviewSummaryPrep st tin) "review_summary_tool"
      (fun text => (env.decode text).map (fun j => setKey res "review_summary_tool" j))
  else if s = "calculate_confidence_score" then
    dispatch env (confidencePrep res) "calculate_confidence_score"
      (fun text => (env.decode text).map
        (fun j => setKey res "calculate_confidence_score" j))
  else if s = "self_check_tool_results" then
    dispatch env (.ok (mkInput [("tools_results", .obj res)])) "self_check_tool_results"
      (fun text => (env.decode text).map
        (fun j => setKey res "self_check_tool_results" j))
  else if s = "show_reasoning" then
    dispatch env (showReasoningPrep env st res) "show_reasoning"
      (fun text => .ok (setKey res "show_reasoning" (.str text)))
  else if s = "calculate" then
    dispatch env ((jget tin "expression" (.str "")).map
        (fun e => mkInput [("expression", e)])) "calculate"
      (fun text => .ok (setKey res "calculate" (.str text)))
  else if s = "verify" then
    dispatch env (verifyPrep tin) "verify"
      (fun text => .ok (setKey res "verify" (.str text)))
  else if s = "review_consistency_check" then
    dispatch env (consistencyPrep res) "review_consistency_check"
      (fun text => .ok (setKey res "review_consistency_check" (.str text)))
  else if s = "check_consistency" then
    dispatch env ((jget tin "steps" (.arr [])).map
        (fun steps => mkInput [("steps", steps)])) "check_consistency"
      (fun text => .ok (setKey res "check_consistency"
        (match env.evalPy text with
         | .ok v => v
         | .error _ => .str text)))
  else
    (.ok res, [])

/-- One iteration of the step loop (src/action_layer.py lines 171-404):
normalize the step, then dispatch on the resulting name.  A normalized
name that is absent or not one of the recognized strings falls to the
warn-and-skip branch (line 403-404); a `None` or non-string name compares
unequal to every recognized name in Python, which the match below mirrors.
A non-dict step would make the Python membership probes misbehave; the
claims only exercise dict-shaped steps, and other shapes are modelled as a
`TypeError`. -/
def execStep (env : Env) (st : AgentState) (res : ToolResults) (tc : Json) :
    Except String ToolResults × Trace :=
  match tc with
  | .obj fields =>
    match extractToolName fields with
    | .error e => (.error e, [])
    | .ok nmOpt =>
      match extractToolInput fields with
      | .error e => (.error e, [])
      | .ok tin =>
        match nmOpt with
        | some (.str s) => dispatchByName env st res s tin
        | _ => (.ok res, [])
  | _ => (.error "TypeError: tool call step is not a mapping", [])

/-- The step loop: runs steps in order, threading the results; the first
raised exception aborts the remaining steps (the loop body sits inside the
plan-level `try`).  The trace keeps every call issued before the abort. -/
def execSteps (env : Env) (st : AgentState) :
    List Json → ToolResults → Except String ToolResults × Trace
  | [], res => (.ok res, [])
  | tc :: rest, res =>
      match execStep env st res tc with
      | (.ok res', tr) =>
          match execSteps env st rest res' with
          | (out, tr') => (out, tr ++ tr')
      | (.error e, tr) => (.error e, tr)

/-- Embedding of `ActionLayer.execute_tool_plan` (src/action_layer.py lines 154-411),
instrumented with the trace of remote calls.  An `error` key short-circuits
before the `try`; a missing `tool_calls` key leaves the empty results; an
exception anywhere in the loop is caught at lines 409-411 and replaced by
`\x7b"error": str(e)\x7d`, discarding accumulated results.  A non-list
`tool_calls` value is modelled as a `TypeError` from the `for` statement. -/
def executeToolPlanTr (env : Env) (st : AgentState)
    (toolPlan : List (String × Json)) : ToolResults × Trace :=
  match toolPlan.lookup "error" with
  | some v => ([("error", v)], [])
  | none =>
    match toolPlan.lookup "tool_calls" with
    | none => ([], [])
    | some (.arr steps) =>
        match execSteps env st steps [] with
        | (.ok res, tr) => (res, tr)
        | (.error e, tr) => ([("error", .str e)], tr)
    | some _ => ([("error", .str "TypeError: tool_calls object is not iterable")], [])

/-- The value `execute_tool_plan` returns to its caller. -/
def executeToolPlan (env : Env) (st : AgentState)
    (toolPlan : List (String × Json)) : ToolResults :=
  (executeToolPlanTr env st toolPlan).1

/-- The degraded summary returned by the outer `except` of
`ActionLayer.check_tool_results` (src/action_layer.py lines 456-464). -/
def degradedSummary (msg : String) : List (String × Json) :=
  [("reliability_score", .num 0), ("reliability_level", .str "Low"),
   ("issues", .arr [.str ("Error checking tool results: " ++ msg)]),
   ("warnings", .arr [.str "Could not complete self-check"]),
   ("insights", .arr [])]

/-- The default `check_results` substituted when the response text fails to
decode (src/action_layer.py lines 436-442). -/
def defaultCheckResults : Json :=
  .obj [("reliability_score", .num 0), ("reliability_level", .str "Low"),
        ("issues", .arr [.str "Invalid response format from self-check tool"]),
        ("warnings", .arr [.str "Could not parse self-check results"]),
        ("insights", .arr [])]

/-- The reduction of `check_results` to the returned `check_summary`
(src/action_layer.py lines 445-451); the `.get`/`len` reads can raise when
`check_results` decodes to a non-dict, and those exceptions reach the outer
handler. -/
def buildCheckSummary (cr : Json) : Except String (List (String × Json)) := do
  let score ← jget cr "reliability_score" (.num 0)
  let level ← jget cr "reliability_level" (.str "Unknown")
  let issues ← jget cr "issues" (.arr [])
  let ic ← pyLen issues
  let warnings ← jget cr "warnings" (.arr [])
  let wc ← pyLen warnings
  let insights ← jget cr "insights" (.arr [])
  let nc ← pyLen insights
  pure [("reliability_score", score), ("reliability_level", level),
        ("issues_count", .num ic), ("warnings_count", .num wc),
        ("insights_count", .num nc)]

/-- Embedding of `ActionLayer.check_tool_results` (src/action_layer.py lines 413-464):
call the self-check tool over the whole results mapping, decode, reduce to
the count summary; any exception on the way is converted to the degraded
summary by the outer handler, so the function never raises. -/
def check_tool_results (env : Env) (results : ToolResults) :
    List (String × Json) :=
  match env.callTool "self_check_tool_results"
      (mkInput [("tools_results", .obj results)]) with
  | .error e => degradedSummary e
  | .ok text =>
      let cr : Json :=
        match env.decode text with
        | .ok j => j
        | .error _ => defaultCheckResults
      match buildCheckSummary cr with
      | .ok s => s
      | .error e => degradedSummary e

/-- The ten tool-name strings recognized by the dispatch chain
(src/action_layer.py lines 202-402). -/
def recognizedToolNames : List String :=
  ["classify_product", "review_summary", "review_summary_tool",
   "calculate_confidence_score", "self_check_tool_results", "show_reasoning",
   "calculate", "verify", "review_consistency_check", "check_consistency"]

/-- An environment whose remote channel always raises and whose decoder
always fails; used to instantiate universally quantified statements. -/
def envFail : Env :=
  { callTool := fun _ _ => .error "no remote",
    decode := fun _ => .error "bad json",
    evalPy := fun _ => .error "no eval" }

/-- An environment whose remote channel answers every call with a
non-JSON text. -/
def envBadJson : Env :=
  { callTool := fun _ _ => .ok "x",
    decode := fun _ => .error "Expecting value",
    evalPy := fun _ => .error "no eval" }

/-- An environment where only `classify_product` answers; every other
remote call raises. -/
def envClassify : Env :=
  { callTool := fun n _ =>
      if n = "classify_product" then .ok "Electronics" else .error "boom",
    decode := fun _ => .error "bad json",
    evalPy := fun _ => .error "no eval" }

/-- An environment whose remote channel answers with an empty JSON object
text. -/
def envOkEmpty : Env :=
  { callTool := fun _ _ => .ok "\x7b\x7d",
    decode := fun _ => .ok (.obj []),
    evalPy := fun _ => .error "no eval" }

/-- Fresh session state: `product_info` and `current_site` are `None`. -/
def stEmpty : AgentState := { productInfo := .null, currentSite := .null }

/-- Product info fields of the running example: a titled product with two
raw review texts, detected on a site. -/
def pfP : List (String × Json) :=
  [("title", .str "X"), ("site", .str "amazon"),
   ("reviews", .arr [.str "good", .str "bad"])]

/-- Session state after `set_product_info` on `pfP`. -/
def stP : AgentState := setProductInfo stEmpty pfP

/-- Inversion of a successful `Except` bind: the first action succeeded and
the continuation succeeded on its value. -/
lemma exceptBind_ok {α β : Type} {a : Except String α} {k : α → Except String β}
    {b : β} (h : a >>= k = Except.ok b) :
    ∃ x, a = Except.ok x ∧ k x = Except.ok b := by
  cases a with
  | error e => exact absurd h (by simp [Bind.bind, Except.bind])
  | ok x => exact ⟨x, rfl, by simpa [Bind.bind, Except.bind] using h⟩

/-- A dispatch that never reaches the unrecognized-name fallback issues its
remote call with exactly the prepared payload: trace membership pins both
the tool name and the arguments. -/
lemma dispatch_trace_mem {env : Env} {prep : Except String Json} {nm : String}
    {post : String → Except String ToolResults} {p : String × Json}
    (h : p ∈ (dispatch env prep nm post).2) :
    prep = .ok p.2 ∧ p.1 = nm := by
  cases prep with
  | error e => simp [dispatch] at h
  | ok args =>
      simp [dispatch] at h
      subst h
      exact ⟨rfl, rfl⟩

/-- C3: a ToolPlan carrying an `error` key makes `execute_tool_plan` return
exactly that error and issue no remote call, whether or not `tool_calls` is
also present (src/action_layer.py lines 164-165 run before the loop). -/
theorem c3_error_plan_short_circuits (env : Env) (st : AgentState)
    (plan : List (String × Json)) (v : Json)
    (h : plan.lookup "error" = some v) :
    executeToolPlanTr env st plan = ([("error", v)], []) := by
  simp [executeToolPlanTr, h]

/-- Witness for C3: the plan carries both `error` and `tool_calls`; the
error wins and the trace is empty. -/
theorem c3_witness :
    executeToolPlanTr envFail stEmpty
      [("error", .str "x"),
       ("tool_calls", .arr [.obj [("tool", .str "classify_product")]])]
      = ([("error", .str "x")], []) :=
  c3_error_plan_short_circuits envFail stEmpty _ _ rfl

/-- C10: a ToolPlan carrying neither `error` nor `tool_calls` yields the
empty ToolResults mapping, with no remote call and no reported error
(src/action_layer.py lines 164-171, 406-407: the loop is guarded by the
`tool_calls` membership test and `results` starts empty). -/
theorem c10_no_keys_empty_results (env : Env) (st : AgentState)
    (plan : List (String × Json))
    (h1 : plan.lookup "error" = none)
    (h2 : plan.lookup "tool_calls" = none) :
    executeToolPlanTr env st plan = ([], []) := by
  simp [executeToolPlanTr, h1, h2]

/-- Witness for C10: the empty plan mapping. -/
theorem c10_witness :
    executeToolPlanTr envFail stEmpty [("note", .str "no plan")] = ([], []) :=
  c10_no_keys_empty_results envFail stEmpty _ rfl rfl

/-- C4: an exception raised while processing any step makes the whole plan
return only the error mapping: the accumulated partial results are absent
from the returned value and the exception does not escape (the function is
total); src/action_layer.py lines 169-171, 409-411. -/
theorem c4_step_exception_aborts_plan (env : Env) (st : AgentState)
    (plan : List (String × Json)) (steps : List Json) (e : String) (tr : Trace)
    (h1 : plan.lookup "error" = none)
    (h2 : plan.lookup "tool_calls" = some (.arr steps))
    (h3 : execSteps env st steps [] = (.error e, tr)) :
    executeToolPlan env st plan = [("error", .str e)] ∧
      ∀ k, k ≠ "error" → (executeToolPlan env st plan).lookup k = none := by
  have hmain : executeToolPlan env st plan = [("error", .str e)] := by
    simp [executeToolPlan, executeToolPlanTr, h1, h2, h3]
  refine ⟨hmain, fun k hk => ?_⟩
  rw [hmain]
  simp [List.lookup, beq_eq_false_iff_ne.mpr hk]

/-- Witness for C4: classify succeeds, then the review-summary call raises;
the computed classify result is discarded from the returned mapping. -/
theorem c4_witness :
    executeToolPlan envClassify stP
      [("tool_calls", .arr
        [.obj [("tool", .str "classify_product")],
         .obj [("tool", .str "review_summary_tool")]])]
      = [("error", .str "boom")] ∧
      (executeToolPlan envClassify stP
        [("tool_calls", .arr
          [.obj [("tool", .str "classify_product")],
           .obj [("tool", .str "review_summary_tool")]])]).lookup "classify_product"
        = none := by
  have h := c4_step_exception_aborts_plan envClassify stP
    [("tool_calls", .arr
      [.obj [("tool", .str "classify_product")],
       .obj [("tool", .str "review_summary_tool")]])]
    [.obj [("tool", .str "classify_product")],
     .obj [("tool", .str "review_summary_tool")]]
    "boom"
    [("classify_product", mkInput [("title", .str "X")]),
     ("review_summary_tool", mkInput
       [("product", .str "X"), ("site", .str "amazon"),
        ("reviews", .arr [.str "good", .str "bad"]),
        ("num_reviews", .num 1000)])]
    rfl rfl rfl
  exact ⟨h.1, h.2 "classify_product" (by decide)⟩

/-- C6: the `calculate_confidence_score` branch reads
`results["review_summary_tool"]` under a handler that catches only
`json.JSONDecodeError`; when no `review_summary_tool` result was
accumulated, the dict indexing raises `KeyError`, which escapes to the
plan-level handler and aborts the whole plan — the default sentiment
object written in the handler is unreachable, contradicting the claimed
fallback (src/action_layer.py lines 235-246). -/
theorem c6_confidence_missing_summary_aborts (env : Env) (st : AgentState) :
    confidencePrep [] = .error "KeyError: review_summary_tool" ∧
    executeToolPlanTr env st
      [("tool_calls", .arr [.obj [("tool", .str "calculate_confidence_score")]])]
      = ([("error", .str "KeyError: review_summary_tool")], []) :=
  ⟨rfl, rfl⟩

/-- C7: the `review_consistency_check` branch defaults a missing
`review_summary_tool` result to the STRING literal of an empty JSON object
and then calls `.get` on it; the resulting `AttributeError` is not caught
by the `json.JSONDecodeError` guard, so the extraction raises and the plan
aborts instead of defaulting to empty sequences (src/action_layer.py lines
360-375). -/
theorem c7_consistency_missing_summary_aborts (env : Env) (st : AgentState) :
    consistencyPrep [] = .error "AttributeError: object has no attribute get: reviews" ∧
    executeToolPlanTr env st
      [("tool_calls", .arr [.obj [("tool", .str "review_consistency_check")]])]
      = ([("error", .str "AttributeError: object has no attribute get: reviews")], []) :=
  ⟨rfl, rfl⟩

/-- C2 (amended): the Normalizer resolves the name by trying `tool`, then
`tool_name`, then `function.name`, then `name` (first present wins, absent
when none is), and the input by trying `input`, then `parameters`, then
`arguments`, then `function.arguments` (first present wins, empty mapping
when none is) — PROVIDED the `function` value, when it is consulted, is a
mapping; a non-container `function` value makes the nested membership
probe raise `TypeError` instead of falling through (see the
counterexample).  Two steps carrying the same semantic name and input
under different alias combinations therefore normalize identically. -/
theorem c2_normalizer_priority (tc ff : List (String × Json)) (v : Json) :
    (tc.lookup "tool" = some v → extractToolName tc = .ok (some v)) ∧
    (tc.lookup "tool" = none → tc.lookup "tool_name" = some v →
      extractToolName tc = .ok (some v)) ∧
    (tc.lookup "tool" = none → tc.lookup "tool_name" = none →
      tc.lookup "function" = some (.obj ff) → ff.lookup "name" = some v →
      extractToolName tc = .ok (some v)) ∧
    (tc.lookup "tool" = none → tc.lookup "tool_name" = none →
      tc.lookup "function" = none →
      extractToolName tc = .ok (tc.lookup "name")) ∧
    (tc.lookup "tool" = none → tc.lookup "tool_name" = none →
      tc.lookup "function" = some (.obj ff) → ff.lookup "name" = none →
      extractToolName tc = .ok (tc.lookup "name")) ∧
    (tc.lookup "input" = some v → extractToolInput tc = .ok v) ∧
    (tc.lookup "input" = none → tc.lookup "parameters" = some v →
      extractToolInput tc = .ok v) ∧
    (tc.lookup "input" = none → tc.lookup "parameters" = none →
      tc.lookup "arguments" = some v → extractToolInput tc = .ok v) ∧
    (tc.lookup "input" = none → tc.lookup "parameters" = none →
      tc.lookup "arguments" = none → tc.lookup "function" = some (.obj ff) →
      ff.lookup "arguments" = some v → extractToolInput tc = .ok v) ∧
    (tc.lookup "input" = none → tc.lookup "parameters" = none →
      tc.lookup "arguments" = none → tc.lookup "function" = none →
      extractToolInput tc = .ok (.obj [])) ∧
    (tc.lookup "input" = none → tc.lookup "parameters" = none →
      tc.lookup "arguments" = none → tc.lookup "function" = some (.obj ff) →
      ff.lookup "arguments" = none → extractToolInput tc = .ok (.obj [])) := by
  refine ⟨fun h1 => ?_, fun h1 h2 => ?_, fun h1 h2 h3 h4 => ?_,
    fun h1 h2 h3 => ?_, fun h1 h2 h3 h4 => ?_, fun h1 => ?_, fun h1 h2 => ?_,
    fun h1 h2 h3 => ?_, fun h1 h2 h3 h4 h5 => ?_, fun h1 h2 h3 h4 => ?_,
    fun h1 h2 h3 h4 h5 => ?_⟩ <;>
  simp [extractToolName, extractToolInput, inJson, jindex, Except.bind,
    Except.map, *]

/-- Witness for C2: a step under the `tool_name`/`parameters` aliases
normalizes to its carried name and input. -/
theorem c2_witness :
    extractToolName [("tool_name", .str "review_summary_tool"),
        ("parameters", .obj [("product", .str "X")])]
      = .ok (some (.str "review_summary_tool")) ∧
    extractToolInput [("tool_name", .str "review_summary_tool"),
        ("parameters", .obj [("product", .str "X")])]
      = .ok (.obj [("product", .str "X")]) :=
  ⟨(c2_normalizer_priority _ [] (.str "review_summary_tool")).2.1 rfl rfl,
   (c2_normalizer_priority _ [] (.obj [("product", .str "X")])).2.2.2.2.2.2.1
     rfl rfl⟩

/-- Counterexample for C2 as stated: a step whose `function` value is the
number `5` carries none of the four name aliases, so the claim says it
normalizes to an absent name and is skipped; the code instead evaluates
`"name" in tool_call["function"]`, raising `TypeError` and aborting the
whole plan — not the empty result the claim implies. -/
theorem c2_counterexample_function_not_mapping :
    extractToolName [("function", .num 5)]
      = .error "TypeError: argument of type is not iterable: name" ∧
    executeToolPlanTr envFail stEmpty
      [("tool_calls", .arr [.obj [("function", .num 5)]])]
      = ([("error", .str "TypeError: argument of type is not iterable: name")], []) ∧
    (executeToolPlanTr envFail stEmpty
      [("tool_calls", .arr [.obj [("function", .num 5)]])]).1 ≠ [] :=
  ⟨rfl, rfl, ne_of_eq_of_ne rfl (List.cons_ne_nil _ _)⟩

/-- C9 (amended): `check_tool_results` is total (the model of a function
that never lets an exception escape) and degrades deterministically with
`reliability_score = 0` and `reliability_level = "Low"` on both failure
paths; but the two paths return different shapes: a raising remote call
yields the full degraded object with `issues = ["Error checking tool
results: ..."]` and `warnings = ["Could not complete self-check"]`, while
an undecodable response yields the COUNT summary
`issues_count = 1, warnings_count = 1, insights_count = 0` with no
`issues`/`warnings`/`insights` lists at all (src/action_layer.py lines
431-464: the degraded `check_results` of the decode path is reduced to
`check_summary` before being returned). -/
theorem c9_selfcheck_degraded_paths (env : Env) (res : ToolResults)
    (e text d : String) :
    (env.callTool "self_check_tool_results"
        (mkInput [("tools_results", .obj res)]) = .error e →
      check_tool_results env res = degradedSummary e) ∧
    (env.callTool "self_check_tool_results"
        (mkInput [("tools_results", .obj res)]) = .ok text →
      env.decode text = .error d →
      check_tool_results env res =
        [("reliability_score", .num 0), ("reliability_level", .str "Low"),
         ("issues_count", .num 1), ("warnings_count", .num 1),
         ("insights_count", .num 0)]) := by
  constructor
  · intro h
    simp [check_tool_results, h]
  · intro h1 h2
    simp only [check_tool_results, h1, h2]
    rfl

/-- Witness for C9: both degraded paths at concrete environments and the
empty ToolResults mapping. -/
theorem c9_witness :
    check_tool_results envFail [] = degradedSummary "no remote" ∧
    check_tool_results envBadJson [] =
      [("reliability_score", .num 0), ("reliability_level", .str "Low"),
       ("issues_count", .num 1), ("warnings_count", .num 1),
       ("insights_count", .num 0)] :=
  ⟨(c9_selfcheck_degraded_paths envFail [] "no remote" "" "").1 rfl,
   (c9_selfcheck_degraded_paths envBadJson [] "" "x" "Expecting value").2
     rfl rfl⟩

/-- Counterexample for C9 as stated: on an undecodable response the
returned summary carries counts, not the documented `issues`/`warnings`
content and empty `insights` — those keys are absent from the returned
mapping. -/
theorem c9_counterexample_counts_not_content :
    check_tool_results envBadJson [] =
      [("reliability_score", .num 0), ("reliability_level", .str "Low"),
       ("issues_count", .num 1), ("warnings_count", .num 1),
       ("insights_count", .num 0)] ∧
    (check_tool_results envBadJson []).lookup "issues" = none ∧
    (check_tool_results envBadJson []).lookup "warnings" = none ∧
    (check_tool_results envBadJson []).lookup "insights" = none :=
  ⟨rfl, rfl, rfl, rfl⟩

/-- A name outside the recognized list falls through the whole dispatch
chain to the warn-and-skip branch: results unchanged, no remote call. -/
lemma dispatchByName_unknown (env : Env) (st : AgentState) (res : ToolResults)
    (tin : Json) (s : String) (h : s ∉ recognizedToolNames) :
    dispatchByName env st res s tin = (.ok res, []) := by
  simp [recognizedToolNames] at h
  obtain ⟨h1, h2, h3, h4, h5, h6, h7, h8, h9, h10⟩ := h
  simp [dispatchByName, h1, h2, h3, h4, h5, h6, h7, h8, h9, h10]

/-- A step whose normalized name is absent, not a string, or not a
recognized string is skipped: results unchanged, no remote call, no
exception. -/
lemma execStep_unknown (env : Env) (st : AgentState) (res : ToolResults)
    (uf : List (String × Json)) (nm : Option Json) (tin : Json)
    (hnm : extractToolName uf = .ok nm) (hti : extractToolInput uf = .ok tin)
    (hunk : ∀ s, nm = some (.str s) → s ∉ recognizedToolNames) :
    execStep env st res (.obj uf) = (.ok res, []) := by
  simp only [execStep, hnm, hti]
  match nm with
  | none => rfl
  | some (.null) => rfl
  | some (.bool _) => rfl
  | some (.num _) => rfl
  | some (.arr _) => rfl
  | some (.obj _) => rfl
  | some (.str s) => exact dispatchByName_unknown env st res tin s (hunk s rfl)

/-- C5: a plan made of one unrecognized step (any step whose normalized
name is absent or not a recognized string) followed by a valid
`classify_product` step returns exactly the `classify_product` entry: the
unknown step contributes no entry, no call and no exception, and does not
stop the classify step (src/action_layer.py lines 202-208, 403-404). -/
theorem c5_unknown_step_skipped (env : Env) (st : AgentState)
    (pf uf : List (String × Json)) (nm : Option Json) (tinU ttl : Json)
    (txt : String)
    (hpi : st.productInfo = .obj pf)
    (httl : pf.lookup "title" = some ttl)
    (hnm : extractToolName uf = .ok nm)
    (hti : extractToolInput uf = .ok tinU)
    (hunk : ∀ s, nm = some (.str s) → s ∉ recognizedToolNames)
    (hcall : env.callTool "classify_product" (mkInput [("title", ttl)]) = .ok txt) :
    executeToolPlanTr env st
      [("tool_calls", .arr [.obj uf, .obj [("tool", .str "classify_product")]])]
      = ([("classify_product", .str txt)],
         [("classify_product", mkInput [("title", ttl)])]) := by
  have hskip : execStep env st [] (.obj uf) = (.ok [], []) :=
    execStep_unknown env st [] uf nm tinU hnm hti hunk
  have hprep : classifyPrep st (.obj []) = .ok (mkInput [("title", ttl)]) := by
    simp [classifyPrep, jindex, jget, hpi, httl, Bind.bind, Except.bind,
      Pure.pure, Except.pure, List.lookup]
  have hclass : execStep env st [] (.obj [("tool", .str "classify_product")])
      = (.ok [("classify_product", .str txt)],
         [("classify_product", mkInput [("title", ttl)])]) := by
    have hred : execStep env st [] (.obj [("tool", .str "classify_product")])
        = dispatch env (classifyPrep st (.obj [])) "classify_product"
            (fun text => .ok (setKey [] "classify_product" (.str text))) := rfl
    rw [hred, hprep]
    simp [dispatch, hcall, setKey]
  simp [executeToolPlanTr, execSteps, hskip, hclass, List.lookup]

/-- Witness for C5: a step named `mystery_tool` is skipped and the classify
step still runs against the session product title. -/
theorem c5_witness :
    executeToolPlanTr envClassify stP
      [("tool_calls", .arr [.obj [("tool", .str "mystery_tool")],
                            .obj [("tool", .str "classify_product")]])]
      = ([("classify_product", .str "Electronics")],
         [("classify_product", mkInput [("title", .str "X")])]) :=
  c5_unknown_step_skipped envClassify stP pfP [("tool", .str "mystery_tool")]
    (some (.str "mystery_tool")) (.obj []) (.str "X") "Electronics"
    rfl rfl rfl rfl
    (by intro s hs
        simp at hs
        subst hs
        decide)
    rfl

/-- C8: a step dispatched as `show_reasoning` while no
`review_summary_tool`, `calculate_confidence_score` or
`self_check_tool_results` entry has been accumulated sends a
`product_data` payload whose analysis fields are all at their documented
zero-values (`pros = []`, `cons = []`, `sentiment_score = 0`,
`review_count = 0`, `confidence_score = 0`, `reliability_score = 0`,
`reliability_level = "Unknown"`); each field is pulled from its own
upstream entry by an independently guarded block when present
(src/action_layer.py lines 276-325). -/
theorem c8_show_reasoning_defaults (env : Env) (st : AgentState)
    (pf : List (String × Json)) (res : ToolResults)
    (fields : List (String × Json)) (tin : Json)
    (hpi : st.productInfo = .obj pf)
    (hnm : extractToolName fields = .ok (some (.str "show_reasoning")))
    (hti : extractToolInput fields = .ok tin)
    (h1 : res.lookup "review_summary_tool" = none)
    (h2 : res.lookup "calculate_confidence_score" = none)
    (h3 : res.lookup "self_check_tool_results" = none) :
    (execStep env st res (.obj fields)).2
      = [("show_reasoning", mkInput [("product_data", .obj
          [("product_name", (pf.lookup "title").getD (.str "Unknown Product")),
           ("sentiment_score", .num 0), ("review_count", .num 0),
           ("pros", .arr []), ("cons", .arr []), ("confidence_score", .num 0),
           ("reliability_score", .num 0),
           ("reliability_level", .str "Unknown")])])] := by
  have hprep : showReasoningPrep env st res
      = .ok (mkInput [("product_data", .obj
          [("product_name", (pf.lookup "title").getD (.str "Unknown Product")),
           ("sentiment_score", .num 0), ("review_count", .num 0),
           ("pros", .arr []), ("cons", .arr []), ("confidence_score", .num 0),
           ("reliability_score", .num 0),
           ("reliability_level", .str "Unknown")])]) := by
    simp [showReasoningPrep, chainSource, h1, h2, h3, hpi, applyReviewFields,
      applyConfidenceField, applySelfCheckFields, jget, setKey, Bind.bind,
      Except.bind, Pure.pure, Except.pure, List.lookup, mkInput]
  have hred : execStep env st res (.obj fields)
      = dispatchByName env st res "show_reasoning" tin := by
    simp [execStep, hnm, hti]
  rw [hred]
  simp [dispatchByName, dispatch, hprep]

/-- Witness for C8: a bare `show_reasoning` step on the fresh (empty)
results mapping of the running example session. -/
theorem c8_witness :
    (execStep envOkEmpty stP [] (.obj [("tool", .str "show_reasoning")])).2
      = [("show_reasoning", mkInput [("product_data", .obj
          [("product_name", (pfP.lookup "title").getD (.str "Unknown Product")),
           ("sentiment_score", .num 0), ("review_count", .num 0),
           ("pros", .arr []), ("cons", .arr []), ("confidence_score", .num 0),
           ("reliability_score", .num 0),
           ("reliability_level", .str "Unknown")])])] :=
  c8_show_reasoning_defaults envOkEmpty stP pfP [] [("tool", .str "show_reasoning")]
    (.obj []) rfl rfl rfl rfl rfl rfl

/-- C1: every remote call dispatched by a step normalized to
`review_summary` or `review_summary_tool` carries as its `reviews` field
the reviews held in the session product info — whatever the step input
contains, including any planted `reviews` entry; two plans differing only
in that entry therefore dispatch identical reviews
(src/action_layer.py line 218: `reviews = self.product_info.get("reviews", [])`). -/
theorem c1_reviews_from_session_state (env : Env) (st : AgentState)
    (pf : List (String × Json)) (res : ToolResults)
    (fields : List (String × Json)) (nm : String) (tin : Json)
    (p : String × Json)
    (hpi : st.productInfo = .obj pf)
    (hnm : extractToolName fields = .ok (some (.str nm)))
    (hrs : nm = "review_summary" ∨ nm = "review_summary_tool")
    (hti : extractToolInput fields = .ok tin)
    (hmem : p ∈ (execStep env st res (.obj fields)).2) :
    (jlookup p.2 "input").bind (fun i => jlookup i "reviews")
      = some ((pf.lookup "reviews").getD (.arr [])) := by
  have hstep : execStep env st res (.obj fields)
      = dispatchByName env st res nm tin := by
    simp [execStep, hnm, hti]
  rw [hstep] at hmem
  have hdisp : dispatchByName env st res nm tin
      = dispatch env (reviewSummaryPrep st tin) "review_summary_tool"
          (fun text => (env.decode text).map
            (fun j => setKey res "review_summary_tool" j)) := by
    rcases hrs with h | h <;> subst h <;> simp [dispatchByName]
  rw [hdisp] at hmem
  obtain ⟨hprep, hname⟩ := dispatch_trace_mem hmem
  simp only [reviewSummaryPrep] at hprep
  obtain ⟨dflt, hd1, hprep⟩ := exceptBind_ok hprep
  obtain ⟨inner, hd2, hprep⟩ := exceptBind_ok hprep
  obtain ⟨product, hd3, hprep⟩ := exceptBind_ok hprep
  obtain ⟨site, hd4, hprep⟩ := exceptBind_ok hprep
  obtain ⟨numReviews, hd5, hprep⟩ := exceptBind_ok hprep
  obtain ⟨reviews, hd6, hprep⟩ := exceptBind_ok hprep
  rw [hpi] at hd6
  simp [jget] at hd6
  simp [Pure.pure, Except.pure] at hprep
  rw [← hprep, ← hd6]
  simp [jlookup, mkInput, List.lookup, Option.bind]

/-- Witness for C1: a plan step that plants a fake `reviews` entry in its
input still dispatches the two session reviews of the running example. -/
theorem c1_witness :
    (jlookup (mkInput [("product", .str "X"), ("site", .str "amazon"),
        ("reviews", .arr [.str "good", .str "bad"]), ("num_reviews", .num 1000)])
      "input").bind (fun i => jlookup i "reviews")
      = some (.arr [.str "good", .str "bad"]) :=
  c1_reviews_from_session_state envOkEmpty stP pfP []
    [("tool_name", .str "review_summary_tool"),
     ("parameters", .obj [("product", .str "X"),
        ("reviews", .arr [.str "fake"])])]
    "review_summary_tool"
    (.obj [("product", .str "X"), ("reviews", .arr [.str "fake"])])
    ("review_summary_tool",
      mkInput [("product", .str "X"), ("site", .str "amazon"),
        ("reviews", .arr [.str "good", .str "bad"]), ("num_reviews", .num 1000)])
    rfl rfl (Or.inr rfl) rfl (List.mem_singleton.mpr rfl)

end SmartPurchase
